import Mathlib

/-!
Verification development for the Govee MCP server's local-network (LAN)
discovery/control engine and the v2 cloud capability translator.

The embedding models JSON values as an inductive type; JavaScript `undefined`
is represented by `Option.none` at the points where a field may be absent.
Machine arithmetic in the colour packing/unpacking code follows JavaScript's
32-bit semantics for `<<`, `>>`, `|`, `&` (operands coerced through ToInt32,
results interpreted as signed 32-bit integers), modelled on `Int`/`Nat`.
-/

/-- JSON values as exchanged on the LAN wire protocol and in the v2 REST
capability schemas.  Object fields are ordered key/value pairs. -/
inductive Json where
  | null : Json
  | bool (b : Bool) : Json
  | num (n : Int) : Json
  | str (s : String) : Json
  | arr (elems : List Json) : Json
  | obj (fields : List (String × Json)) : Json

namespace Json

/-- Property access `j.k`: defined on objects, `none` (undefined) otherwise. -/
def get? : Json → String → Option Json
  | .obj fields, k => fields.lookup k
  | _, _ => none

/-- Read a field that the source casts `as string`; non-strings and absent
fields give `none` (undefined). -/
def getStr? (j : Json) (k : String) : Option String :=
  match j.get? k with
  | some (.str s) => some s
  | _ => none

/-- JavaScript truthiness of a JSON value. -/
def truthy : Json → Bool
  | .null => false
  | .bool b => b
  | .num n => n != 0
  | .str s => s != ""
  | .arr _ => true
  | .obj _ => true

/-- Read a field that the source feeds into a 32-bit bitwise operator
(`as number` cast).  Numeric fields give their value; an absent field is
`undefined`, which ToInt32 coerces to 0.  (Other non-numeric JSON values do
not occur in this protocol's numeric positions.) -/
def numD (j : Json) (k : String) : Int :=
  match j.get? k with
  | some (.num n) => n
  | _ => 0

end Json

/-! ### JavaScript 32-bit integer semantics

`<<`, `>>`, `|`, `&` coerce both operands through ToInt32 (value mod 2^32,
reinterpreted as a signed 32-bit integer) and produce a signed 32-bit
result.  `toUint32` gives the 32-bit bit pattern of an integer as a `Nat`;
`ofUint32` reads a bit pattern back as a signed value. -/

def toUint32 (n : Int) : Nat := (n % 4294967296).toNat

def ofUint32 (n : Nat) : Int :=
  if n < 2147483648 then (n : Int) else (n : Int) - 4294967296

/-- JavaScript `a << b`. -/
def jsShl (a b : Int) : Int :=
  ofUint32 ((toUint32 a <<< (toUint32 b % 32)) % 4294967296)

/-- JavaScript sign-propagating `a >> b` (arithmetic shift = floor division
of the signed 32-bit value). -/
def jsShr (a b : Int) : Int :=
  Int.fdiv (ofUint32 (toUint32 a)) (2 ^ (toUint32 b % 32))

/-- JavaScript `a & b`. -/
def jsAnd (a b : Int) : Int := ofUint32 (toUint32 a &&& toUint32 b)

/-- JavaScript `a | b`. -/
def jsOr (a b : Int) : Int := ofUint32 (toUint32 a ||| toUint32 b)

/-! ### Protocol constants (src/unnamed/part_000, src/src/api-v2.ts) -/

def MULTICAST_ADDR : String := "239.255.255.250"
def SCAN_PORT : Nat := 4001
def LISTEN_PORT : Nat := 4002
def CONTROL_PORT : Nat := 4003
def DISCOVERY_TIMEOUT_MS : Nat := 3000
def CONTROL_TIMEOUT_MS : Nat := 3000
def CACHE_TTL_MS : Nat := 5 * 60 * 1000

def CAP_ON_OFF : String := "devices.capabilities.on_off"
def CAP_RANGE : String := "devices.capabilities.range"
def CAP_COLOR : String := "devices.capabilities.color_setting"
def CAP_SCENE : String := "devices.capabilities.dynamic_scene"

/-! ### Data model (src/src/types.ts) -/

/-- A device discovered on the LAN.  `ip` and `sku` are read from the scan
response with a bare `as string` cast, so they may be absent (`none`);
the firmware-version fields default to `""` via `?? ''` in the source. -/
structure GoveeLanDevice where
  ip : Option String
  device : String
  sku : Option String
  bleVersionHard : String
  bleVersionSoft : String
  wifiVersionHard : String
  wifiVersionSoft : String
deriving DecidableEq, Repr

/-- Normalised device entry returned by `listDevices`. -/
structure GoveeDevice where
  device : String
  model : Option String
  deviceName : String
  controllable : Bool
  retrievable : Bool
  supportCmds : List String
deriving DecidableEq, Repr

/-- Normalised state returned by `getDeviceState`: an ordered list of
single-key property records. -/
structure GoveeDeviceState where
  device : String
  model : String
  properties : List Json

namespace Lan

/-! ### LAN discovery scanner (src/unnamed/part_000, `doDiscover`)

A datagram is modelled as `Option Json`: `none` stands for a payload that
`JSON.parse` rejects (the handler's `try`/`catch` silently drops it). -/

/-- The scan-response check and `GoveeLanDevice` construction performed by
`doDiscover`'s message handler: the parsed payload must have
`msg.cmd === "scan"`, a truthy `msg.data`, and a truthy `device` field
(read `as string`).  Everything else is ignored. -/
def extractScan : Option Json → Option GoveeLanDevice
  | none => none
  | some data =>
    match data.get? "msg" with
    | none => none
    | some msgData =>
      match msgData.get? "cmd", msgData.get? "data" with
      | some (.str "scan"), some d =>
        if d.truthy then
          match d.getStr? "device" with
          | some deviceId =>
            if deviceId ≠ "" then
              some { ip := d.getStr? "ip"
                     device := deviceId
                     sku := d.getStr? "sku"
                     bleVersionHard := (d.getStr? "bleVersionHard").getD ""
                     bleVersionSoft := (d.getStr? "bleVersionSoft").getD ""
                     wifiVersionHard := (d.getStr? "wifiVersionHard").getD ""
                     wifiVersionSoft := (d.getStr? "wifiVersionSoft").getD "" }
            else none
          | none => none
        else none
      | _, _ => none

/-- Per-scan accumulator: the `devices` array and the `seen` identifier set
of `doDiscover`. -/
structure ScanAcc where
  devices : List GoveeLanDevice
  seen : List String
deriving DecidableEq, Repr

/-- One step of the message handler: drop non-matching datagrams, drop
identifiers already seen in this scan, otherwise append the new device and
record its identifier. -/
def scanStep (acc : ScanAcc) (dgram : Option Json) : ScanAcc :=
  match extractScan dgram with
  | none => acc
  | some dev =>
    if acc.seen.contains dev.device then acc
    else { devices := acc.devices ++ [dev], seen := acc.seen ++ [dev.device] }

/-- The device list collected by one scan window over a datagram sequence. -/
def scanRun (dgrams : List (Option Json)) : List GoveeLanDevice :=
  (dgrams.foldl scanStep ⟨[], []⟩).devices

/-! ### Discovery cache and single-flight coalescing (src/unnamed/part_000,
`discover` / `doDiscover`)

The mutable closure state (`cache`, `pending`) and the event-loop callbacks
are modelled as a labelled transition system.  Events are the callbacks the
runtime can deliver; outputs record what each event caused. -/

structure DeviceCache where
  devices : List GoveeLanDevice
  expiry : Nat
deriving DecidableEq, Repr

/-- The in-flight scan: its accumulator plus the number of `discover()`
callers awaiting the shared pending promise. -/
structure PendingScan where
  acc : ScanAcc
  waiters : Nat
deriving DecidableEq, Repr

/-- The closure state of `createLanApi`: at most one cache entry and at most
one pending scan exist at any instant, because the source keeps them in the
two variables `cache` and `pending`. -/
structure LanState where
  cache : Option DeviceCache
  pending : Option PendingScan
deriving DecidableEq, Repr

/-- Initial state: `cache` and `pending` start `undefined`. -/
def initState : LanState := { cache := none, pending := none }

/-- Events delivered by the event loop to the discovery subsystem. -/
inductive DiscEv where
  | call (now : Nat)
  | datagram (dgram : Option Json)
  | sendError
  | elapse (now : Nat)

/-- What one event caused. -/
inductive DiscOut where
  | cached (devices : List GoveeLanDevice)
  | joined
  | scanStarted
  | collected
  | resolved (waiters : Nat) (devices : List GoveeLanDevice)
  | rejected (waiters : Nat)
  | ignored
deriving DecidableEq, Repr

/-- One transition of the discovery subsystem.

* `call now` — a `discover()` invocation: a fresh cache entry is returned
  immediately (`cached`), otherwise an in-flight scan is awaited (`joined`),
  otherwise a new scan starts, which sends the one multicast datagram
  (`scanStarted`).
* `datagram` — the listener's message callback feeds the scan accumulator.
* `sendError` — the listener's error callback (bind/send failure):
  `cleanup()` closes the socket, the promise rejects all waiters, and the
  `finally` clears `pending`; the cache is untouched.
* `elapse now` — the collection window closes at time `now`: `cleanup()`
  closes the socket, the cache is written with expiry `now + CACHE_TTL_MS`,
  all waiters resolve with the collected list, and `finally` clears
  `pending`. -/
def step (st : LanState) (ev : DiscEv) : LanState × DiscOut :=
  match ev with
  | .call now =>
    match st.cache with
    | some c =>
      if now < c.expiry then (st, .cached c.devices)
      else
        match st.pending with
        | some p => ({ st with pending := some { p with waiters := p.waiters + 1 } }, .joined)
        | none => ({ st with pending := some { acc := ⟨[], []⟩, waiters := 1 } }, .scanStarted)
    | none =>
      match st.pending with
      | some p => ({ st with pending := some { p with waiters := p.waiters + 1 } }, .joined)
      | none => ({ st with pending := some { acc := ⟨[], []⟩, waiters := 1 } }, .scanStarted)
  | .datagram dgram =>
    match st.pending with
    | some p => ({ st with pending := some { p with acc := scanStep p.acc dgram } }, .collected)
    | none => (st, .ignored)
  | .sendError =>
    match st.pending with
    | some p => ({ cache := st.cache, pending := none }, .rejected p.waiters)
    | none => (st, .ignored)
  | .elapse now =>
    match st.pending with
    | some p =>
      ({ cache := some { devices := p.acc.devices, expiry := now + CACHE_TTL_MS }, pending := none },
       .resolved p.waiters p.acc.devices)
    | none => (st, .ignored)

/-- Run a sequence of events, collecting the outputs in order. -/
def run (st : LanState) : List DiscEv → LanState × List DiscOut
  | [] => (st, [])
  | ev :: evs =>
    let (st', out) := step st ev
    let (st'', outs) := run st' evs
    (st'', out :: outs)

/-- Number of multicast sends caused by a run: one per scan start. -/
def sends (outs : List DiscOut) : Nat :=
  outs.countP fun o => match o with | .scanStarted => true | _ => false

/-- Events that neither settle nor start a scan: further `discover()` calls
and inbound datagrams. -/
def busyEv : DiscEv → Bool
  | .call _ => true
  | .datagram _ => true
  | _ => false

/-- Number of `discover()` calls in an event sequence. -/
def callsOf (evs : List DiscEv) : Nat :=
  evs.countP fun e => match e with | .call _ => true | _ => false

/-- The datagrams of an event sequence, in arrival order. -/
def dgramsOf (evs : List DiscEv) : List (Option Json) :=
  evs.filterMap fun e => match e with | .datagram d => some d | _ => none

/-- Output produced by a call/datagram event while a scan is in flight. -/
def busyOut : DiscEv → DiscOut
  | .call _ => .joined
  | .datagram _ => .collected
  | _ => .ignored

/-- Whether an output marks a settling of the scan, at which point the
source's `cleanup()` has closed the receiving socket. -/
def closesListener : DiscOut → Bool
  | .resolved _ _ => true
  | .rejected _ => true
  | _ => false

/-! ### Device lookup and control channel (src/unnamed/part_000) -/

/-- `findDevice`: look up a discovered device by identifier; throws a
Not-Found error telling the caller to re-run discovery when absent. -/
def findDevice (devices : List GoveeLanDevice) (deviceId : String) :
    Except String GoveeLanDevice :=
  match devices.find? (fun dev => dev.device == deviceId) with
  | some d => .ok d
  | none =>
    .error ("LAN device \x27" ++ deviceId ++ "\x27 not found. Run list_devices first to discover devices.")

/-- `listDevices`: map the discovered LAN devices to normalised entries. -/
def listDevices (lanDevices : List GoveeLanDevice) : List GoveeDevice :=
  lanDevices.map fun d =>
    { device := d.device
      model := d.sku
      deviceName := d.device
      controllable := true
      retrievable := false
      supportCmds := ["turn", "brightness", "color", "colorTem"] }

/-- `translateCmd` of the LAN backend: abstract command to local wire
envelope.  The source destructures `cmd.name` (a `String`) and `cmd.value`. -/
def translateCmd (name : String) (value : Json) : Except String Json :=
  match name with
  | "turn" =>
    .ok (.obj [("msg", .obj [("cmd", .str "turn"),
      ("data", .obj [("value", .num (match value with | .str "on" => 1 | _ => 0))])])])
  | "brightness" =>
    .ok (.obj [("msg", .obj [("cmd", .str "brightness"),
      ("data", .obj [("value", value)])])])
  | "color" =>
    .ok (.obj [("msg", .obj [("cmd", .str "colorwc"),
      ("data", .obj [("color", value), ("colorTemInKelvin", .num 0)])])])
  | "colorTem" =>
    .ok (.obj [("msg", .obj [("cmd", .str "colorwc"),
      ("data", .obj [("color", .obj [("r", .num 0), ("g", .num 0), ("b", .num 0)]),
                     ("colorTemInKelvin", value)])])])
  | _ => .error ("Unknown command: " ++ name)

/-- Outcome of `controlDevice` after `discover()` has produced a device
list.  `sent` is the only constructor that represents a datagram handed to
the network; the error constructors return before any socket is opened. -/
inductive ControlOutcome where
  | notFound (err : String)
  | unknownCmd (err : String)
  | sent (ip : Option String) (port : Nat) (payload : Json)

/-- `controlDevice` after its `await discover()`: look the device up in the
discovered list, translate the command, then send one datagram to the
device's address on the control port. -/
def controlDevice (devices : List GoveeLanDevice) (deviceId : String)
    (name : String) (value : Json) : ControlOutcome :=
  match findDevice devices deviceId with
  | .error e => .notFound e
  | .ok lanDevice =>
    match translateCmd name value with
    | .error e => .unknownCmd e
    | .ok message => .sent lanDevice.ip CONTROL_PORT message

/-! ### State query (src/unnamed/part_000, `getDeviceState`)

The per-call socket exchange is modelled over the sequence of datagrams the
socket receives, each tagged with its arrival time in milliseconds after the
query was sent.  The 3000 ms timer set at bind cuts the sequence off: a
datagram arriving at or after `CONTROL_TIMEOUT_MS` is preceded by the timer
callback, which has already closed the socket and rejected the promise. -/

/-- The string a JavaScript template literal produces for the device's `ip`
field (`undefined` interpolates as the text "undefined"). -/
def ipText : Option String → String
  | some s => s
  | none => "undefined"

/-- Build the `properties` list from a `devStatus` response's `data`
object. -/
def statusProps (status : Json) : List Json :=
  (match status.get? "onOff" with
   | some v => [Json.obj [("powerState", .str (match v with | .num 1 => "on" | _ => "off"))]]
   | none => []) ++
  (match status.get? "brightness" with
   | some v => [Json.obj [("brightness", v)]]
   | none => []) ++
  (match status.get? "color" with
   | some v => if v.truthy then [Json.obj [("color", v)]] else []
   | none => []) ++
  (match status.get? "colorTemInKelvin" with
   | some v => if v.truthy then [Json.obj [("colorTem", v)]] else []
   | none => [])

/-- How one `getDeviceState` call ends.

* `resolved` — a datagram with `msg.cmd === "devStatus"` arrived: `cleanup()`
  ran, then the promise resolved with the translated state.
* `hung` — a `devStatus` datagram whose `msg.data` is absent or `null`:
  `cleanup()` ran, then reading `status.onOff` threw inside the handler's
  `try`, so the promise never settles.
* `timedOut` — no `devStatus` datagram before the timer fired: `cleanup()`
  ran and the promise rejected with the Timeout error.

Each constructor records whether the socket was closed on that path. -/
inductive QueryEnd where
  | resolved (state : GoveeDeviceState) (socketClosed : Bool)
  | hung (socketClosed : Bool)
  | timedOut (err : String) (socketClosed : Bool)

/-- Process the datagrams delivered before the timer in arrival order. -/
def queryLoop (device model : String) (ip : Option String) :
    List (Option Json) → QueryEnd
  | [] => .timedOut ("Timeout waiting for device state from " ++ ipText ip) true
  | dgram :: rest =>
    match dgram with
    | none => queryLoop device model ip rest
    | some data =>
      match data.get? "msg" with
      | none => queryLoop device model ip rest
      | some msgData =>
        match msgData.get? "cmd" with
        | some (.str "devStatus") =>
          match msgData.get? "data" with
          | some (.null) => .hung true
          | none => .hung true
          | some status => .resolved ⟨device, model, statusProps status⟩ true
        | _ => queryLoop device model ip rest

/-- `getDeviceState` after lookup: only datagrams arriving strictly before
the 3000 ms timer are seen by a live handler. -/
def runQuery (device model : String) (ip : Option String)
    (events : List (Nat × Option Json)) : QueryEnd :=
  queryLoop device model ip
    ((events.filter fun e => e.1 < CONTROL_TIMEOUT_MS).map Prod.snd)

end Lan

namespace V2

/-! ### v2 cloud capability translator (src/src/api-v2.ts) -/

/-- `translateCmd` of the v2 backend: abstract command to typed capability
`{type, instance, value}`.  The colour branch packs the `{r,g,b}` triple
into one integer with JavaScript 32-bit shifts and ors. -/
def translateCmd (name : String) (value : Json) : Except String Json :=
  match name with
  | "turn" =>
    .ok (.obj [("type", .str CAP_ON_OFF), ("instance", .str "powerSwitch"),
      ("value", .num (match value with | .str "on" => 1 | _ => 0))])
  | "brightness" =>
    .ok (.obj [("type", .str CAP_RANGE), ("instance", .str "brightness"),
      ("value", value)])
  | "color" =>
    .ok (.obj [("type", .str CAP_COLOR), ("instance", .str "colorRgb"),
      ("value", .num (jsOr (jsOr (jsShl (value.numD "r") 16) (jsShl (value.numD "g") 8))
                           (value.numD "b")))])
  | "colorTem" =>
    .ok (.obj [("type", .str CAP_COLOR), ("instance", .str "colorTemperatureK"),
      ("value", value)])
  | _ => .error ("Unknown command: " ++ name)

/-- The colour record `getDeviceState` builds from a packed `colorRgb`
capability state (src/src/api-v2.ts line 85). -/
def decodeColor (colorInt : Int) : Json :=
  .obj [("r", .num (jsAnd (jsShr colorInt 16) 255)),
        ("g", .num (jsAnd (jsShr colorInt 8) 255)),
        ("b", .num (jsAnd colorInt 255))]

/-- `getDeviceState`'s capability loop: translate each reported capability
into a normalised single-key property record. -/
def stateProps : List Json → List Json
  | [] => []
  | cap :: rest =>
    let tail := stateProps rest
    let t := cap.getStr? "type"
    let inst := cap.getStr? "instance"
    if t = some CAP_ON_OFF then
      Json.obj [("powerState",
        .str (match cap.get? "state" with | some (.num 1) => "on" | _ => "off"))] :: tail
    else if t = some CAP_RANGE ∧ inst = some "brightness" then
      Json.obj [("brightness", (cap.get? "state").getD .null)] :: tail
    else if t = some CAP_COLOR ∧ inst = some "colorRgb" then
      Json.obj [("color", decodeColor (cap.numD "state"))] :: tail
    else if t = some CAP_COLOR ∧ inst = some "colorTemperatureK" then
      Json.obj [("colorTem", (cap.get? "state").getD .null)] :: tail
    else tail

end V2

/-! ### Proof-side helper definitions

`addSeen` is the device-level step of the scan fold (what `scanStep` does
once a datagram has passed `extractScan`); `dedupSeen` is the reference
first-occurrence-wins filter the scan is proved equal to. -/

namespace Lan

/-- Device-level step of the scan accumulator. -/
def addSeen (acc : ScanAcc) (dev : GoveeLanDevice) : ScanAcc :=
  if acc.seen.contains dev.device then acc
  else { devices := acc.devices ++ [dev], seen := acc.seen ++ [dev.device] }

/-- First-occurrence-wins deduplication relative to a set of already-seen
identifiers. -/
def dedupSeen (seen : List String) : List GoveeLanDevice → List GoveeLanDevice
  | [] => []
  | d :: ds =>
    if seen.contains d.device then dedupSeen seen ds
    else d :: dedupSeen (seen ++ [d.device]) ds

end Lan

/-- Sample device used by the concrete witnesses. -/
def demoLanDevice : GoveeLanDevice :=
  { ip := some "10.0.0.5", device := "AA:BB:CC:DD:EE:FF", sku := some "H6160",
    bleVersionHard := "", bleVersionSoft := "", wifiVersionHard := "", wifiVersionSoft := "" }

/-- The normalised entry `listDevices` produces for `demoLanDevice`. -/
def demoListedDevice : GoveeDevice :=
  { device := "AA:BB:CC:DD:EE:FF", model := some "H6160", deviceName := "AA:BB:CC:DD:EE:FF",
    controllable := true, retrievable := false,
    supportCmds := ["turn", "brightness", "color", "colorTem"] }

/-- Sample scan-response datagram used by the concrete witnesses. -/
def demoScanDgram : Option Json :=
  some (.obj [("msg", .obj [("cmd", .str "scan"),
    ("data", .obj [("device", .str "AA:BB:CC:DD:EE:FF"), ("ip", .str "10.0.0.5"),
                   ("sku", .str "H6160")])])])

/-- Sample datagram sequence: a duplicate identifier and a malformed payload. -/
def demoDgrams : List (Option Json) := [demoScanDgram, demoScanDgram, none]

/-- Sample `devStatus` response datagram. -/
def demoStatusDgram : Option Json :=
  some (.obj [("msg", .obj [("cmd", .str "devStatus"),
    ("data", .obj [("onOff", .num 1), ("brightness", .num 80)])])])

/-- Whether a datagram parses and carries the `devStatus` command tag (the
condition `getDeviceState`'s message handler resolves on). -/
def Lan.hasDevStatusTag : Option Json → Bool
  | none => false
  | some data =>
    match data.get? "msg" with
    | none => false
    | some msgData =>
      match msgData.get? "cmd" with
      | some (.str "devStatus") => true
      | _ => false

/-! ## Arithmetic lemmas about the JavaScript 32-bit operations -/

lemma natPack (rn gn bn : Nat) (hg : gn < 256) (hb : bn < 256) :
    (rn <<< 16 ||| gn <<< 8) ||| bn = rn * 65536 + gn * 256 + bn := by
  have h1 : rn <<< 16 = 2 ^ 16 * rn := by rw [Nat.shiftLeft_eq]; ring
  have h2 : gn <<< 8 = 2 ^ 8 * gn := by rw [Nat.shiftLeft_eq]; ring
  have h3 : 2 ^ 16 * rn ||| 2 ^ 8 * gn = 2 ^ 16 * rn + 2 ^ 8 * gn :=
    (Nat.mul_add_lt_is_or (by omega) rn).symm
  have h4 : 2 ^ 16 * rn + 2 ^ 8 * gn = 2 ^ 8 * (2 ^ 8 * rn + gn) := by ring
  have h5 : 2 ^ 8 * (2 ^ 8 * rn + gn) ||| bn = 2 ^ 8 * (2 ^ 8 * rn + gn) + bn :=
    (Nat.mul_add_lt_is_or hb _).symm
  rw [h1, h2, h3, h4, h5]
  omega

lemma toUint32_natCast (n : Nat) (h : n < 4294967296) : toUint32 (n : Int) = n := by
  unfold toUint32; omega

lemma ofUint32_small (n : Nat) (h : n < 2147483648) : ofUint32 n = (n : Int) := by
  unfold ofUint32; simp [h]

lemma jsShl16 (a : Nat) (h : a < 256) : jsShl (a : Int) 16 = ((a <<< 16 : Nat) : Int) := by
  unfold jsShl
  rw [toUint32_natCast a (by omega)]
  have h16 : toUint32 16 % 32 = 16 := by unfold toUint32; omega
  rw [h16]
  have hlt : a <<< 16 < 2147483648 := by rw [Nat.shiftLeft_eq]; omega
  rw [Nat.mod_eq_of_lt (by omega), ofUint32_small _ hlt]

lemma jsShl8 (a : Nat) (h : a < 256) : jsShl (a : Int) 8 = ((a <<< 8 : Nat) : Int) := by
  unfold jsShl
  rw [toUint32_natCast a (by omega)]
  have h8 : toUint32 8 % 32 = 8 := by unfold toUint32; omega
  rw [h8]
  have hlt : a <<< 8 < 2147483648 := by rw [Nat.shiftLeft_eq]; omega
  rw [Nat.mod_eq_of_lt (by omega), ofUint32_small _ hlt]

lemma jsOr_cast (a b : Nat) (ha : a < 2147483648) (hb : b < 2147483648) :
    jsOr (a : Int) (b : Int) = ((a ||| b : Nat) : Int) := by
  unfold jsOr
  rw [toUint32_natCast a (by omega), toUint32_natCast b (by omega)]
  exact ofUint32_small _ (Nat.or_lt_two_pow (n := 31) (by omega) (by omega))

/-- JavaScript `(r << 16) | (g << 8) | b` agrees with plain base-256 place
arithmetic on bytes. -/
lemma pack_eq (r g b : Int) (hr0 : 0 ≤ r) (hr : r ≤ 255) (hg0 : 0 ≤ g) (hg : g ≤ 255)
    (hb0 : 0 ≤ b) (hb : b ≤ 255) :
    jsOr (jsOr (jsShl r 16) (jsShl g 8)) b = r * 65536 + g * 256 + b := by
  obtain ⟨rn, rfl⟩ : ∃ n : Nat, r = (n : Int) := ⟨r.toNat, (Int.toNat_of_nonneg hr0).symm⟩
  obtain ⟨gn, rfl⟩ : ∃ n : Nat, g = (n : Int) := ⟨g.toNat, (Int.toNat_of_nonneg hg0).symm⟩
  obtain ⟨bn, rfl⟩ : ∃ n : Nat, b = (n : Int) := ⟨b.toNat, (Int.toNat_of_nonneg hb0).symm⟩
  have hrn : rn < 256 := by exact_mod_cast Int.lt_add_one_of_le hr
  have hgn : gn < 256 := by exact_mod_cast Int.lt_add_one_of_le hg
  have hbn : bn < 256 := by exact_mod_cast Int.lt_add_one_of_le hb
  rw [jsShl16 rn hrn, jsShl8 gn hgn]
  rw [jsOr_cast _ _ (by rw [Nat.shiftLeft_eq]; omega) (by rw [Nat.shiftLeft_eq]; omega)]
  rw [jsOr_cast _ _ (by
        have := Nat.or_lt_two_pow (x := rn <<< 16) (y := gn <<< 8) (n := 24)
          (by rw [Nat.shiftLeft_eq]; omega) (by rw [Nat.shiftLeft_eq]; omega)
        omega) (by omega)]
  rw [natPack rn gn bn hgn hbn]
  push_cast
  ring

lemma jsShr_cast (n k : Nat) (hn : n < 2147483648) (hk : k < 32) :
    jsShr (n : Int) (k : Int) = ((n / 2 ^ k : Nat) : Int) := by
  unfold jsShr
  rw [toUint32_natCast n (by omega), ofUint32_small _ hn]
  have hkk : toUint32 (k : Int) % 32 = k := by unfold toUint32; omega
  rw [hkk, show ((2 : Int) ^ k) = ((2 ^ k : Nat) : Int) by push_cast; ring]
  exact (Int.ofNat_fdiv n (2 ^ k)).symm

lemma jsAnd255 (n : Nat) (hn : n < 2147483648) :
    jsAnd (n : Int) 255 = ((n % 256 : Nat) : Int) := by
  unfold jsAnd
  rw [toUint32_natCast n (by omega)]
  have h255 : toUint32 255 = 255 := by unfold toUint32; omega
  rw [h255]
  have hmask : n &&& 255 = n % 256 := by
    have := Nat.and_pow_two_sub_one_eq_mod n 8
    norm_num at this
    exact this
  rw [hmask]
  exact ofUint32_small _ (by omega)

/-- The v2 state decoder `(v>>16)&0xFF, (v>>8)&0xFF, v&0xFF` recovers the
bytes of a base-256 packed colour. -/
lemma decode_eq (r g b : Nat) (hr : r < 256) (hg : g < 256) (hb : b < 256) :
    V2.decodeColor ((r * 65536 + g * 256 + b : Nat) : Int) =
      .obj [("r", .num r), ("g", .num g), ("b", .num b)] := by
  unfold V2.decodeColor
  have h1 : jsShr ((r * 65536 + g * 256 + b : Nat) : Int) 16 =
      (((r * 65536 + g * 256 + b) / 2 ^ 16 : Nat) : Int) := jsShr_cast _ 16 (by omega) (by omega)
  have h2 : jsShr ((r * 65536 + g * 256 + b : Nat) : Int) 8 =
      (((r * 65536 + g * 256 + b) / 2 ^ 8 : Nat) : Int) := jsShr_cast _ 8 (by omega) (by omega)
  rw [h1, h2]
  rw [jsAnd255 _ (by omega), jsAnd255 _ (by omega), jsAnd255 _ (by omega)]
  norm_num
  refine ⟨?_, ?_, ?_⟩ <;> omega


/-- C1: for every r, g, b in [0,255], the v2 (remote, typed) translator encodes
the abstract command with name "color" and value \x7br,g,b\x7d as the single packed
integer (r<<16)|(g<<8)|b — equal to r*65536 + g*256 + b — and the v2 state
decoder ((v>>16)&0xFF, (v>>8)&0xFF, v&0xFF), both directly and through
getDeviceState's capability loop, reproduces the exact original triple; in
particular encoding r=255, g=128, b=0 produces 16744448. -/
theorem c1_color_pack_roundtrip (r g b : Int)
    (hr0 : 0 ≤ r) (hr : r ≤ 255) (hg0 : 0 ≤ g) (hg : g ≤ 255)
    (hb0 : 0 ≤ b) (hb : b ≤ 255) :
    V2.translateCmd "color" (.obj [("r", .num r), ("g", .num g), ("b", .num b)]) =
      .ok (.obj [("type", .str CAP_COLOR), ("instance", .str "colorRgb"),
        ("value", .num (r * 65536 + g * 256 + b))]) ∧
    V2.decodeColor (r * 65536 + g * 256 + b) =
      .obj [("r", .num r), ("g", .num g), ("b", .num b)] ∧
    V2.stateProps [.obj [("type", .str CAP_COLOR), ("instance", .str "colorRgb"),
        ("state", .num (r * 65536 + g * 256 + b))]] =
      [.obj [("color", .obj [("r", .num r), ("g", .num g), ("b", .num b)])]] ∧
    V2.translateCmd "color" (.obj [("r", .num 255), ("g", .num 128), ("b", .num 0)]) =
      .ok (.obj [("type", .str CAP_COLOR), ("instance", .str "colorRgb"),
        ("value", .num 16744448)]) := by
  have hdec : V2.decodeColor (r * 65536 + g * 256 + b) =
      .obj [("r", .num r), ("g", .num g), ("b", .num b)] := by
    obtain ⟨rn, rfl⟩ : ∃ n : Nat, r = (n : Int) := ⟨r.toNat, (Int.toNat_of_nonneg hr0).symm⟩
    obtain ⟨gn, rfl⟩ : ∃ n : Nat, g = (n : Int) := ⟨g.toNat, (Int.toNat_of_nonneg hg0).symm⟩
    obtain ⟨bn, rfl⟩ : ∃ n : Nat, b = (n : Int) := ⟨b.toNat, (Int.toNat_of_nonneg hb0).symm⟩
    have hrn : rn < 256 := by exact_mod_cast Int.lt_add_one_of_le hr
    have hgn : gn < 256 := by exact_mod_cast Int.lt_add_one_of_le hg
    have hbn : bn < 256 := by exact_mod_cast Int.lt_add_one_of_le hb
    have hcast : (rn : Int) * 65536 + (gn : Int) * 256 + (bn : Int) =
        ((rn * 65536 + gn * 256 + bn : Nat) : Int) := by push_cast; ring
    rw [hcast, decode_eq rn gn bn hrn hgn hbn]
  refine ⟨?_, hdec, ?_, ?_⟩
  · show Except.ok (Json.obj [("type", .str CAP_COLOR), ("instance", .str "colorRgb"),
      ("value", .num (jsOr (jsOr (jsShl r 16) (jsShl g 8)) b))]) = _
    rw [pack_eq r g b hr0 hr hg0 hg hb0 hb]
  · show [Json.obj [("color", V2.decodeColor (r * 65536 + g * 256 + b))]] = _
    rw [hdec]
  · rfl

/-- Witness C1: the round-trip evaluated at the concrete triple (255,128,0). -/
theorem c1_witness :
    V2.decodeColor 16744448 = .obj [("r", .num 255), ("g", .num 128), ("b", .num 0)] ∧
    V2.translateCmd "color" (.obj [("r", .num 255), ("g", .num 128), ("b", .num 0)]) =
      .ok (.obj [("type", .str CAP_COLOR), ("instance", .str "colorRgb"),
        ("value", .num 16744448)]) := by
  have h := c1_color_pack_roundtrip 255 128 0 (by norm_num) (by norm_num) (by norm_num)
    (by norm_num) (by norm_num) (by norm_num)
  refine ⟨?_, h.2.2.2⟩
  have h2 := h.2.1
  norm_num at h2
  exact h2

/-- C7: the local-protocol translator is total over the four abstract command
names and produces exactly the specified wire shapes: turn "on" gives
msg/turn/value 1 and "off" value 0, brightness passes its value through,
color carries the value with a zero colorTemInKelvin sentinel, colorTem
carries the Kelvin value with a zero r,g,b sentinel, and any other name
fails with an unknown-command error rather than being a silent no-op. -/
theorem c7_local_translator_total_shapes :
    (Lan.translateCmd "turn" (.str "on") =
      .ok (.obj [("msg", .obj [("cmd", .str "turn"), ("data", .obj [("value", .num 1)])])])) ∧
    (Lan.translateCmd "turn" (.str "off") =
      .ok (.obj [("msg", .obj [("cmd", .str "turn"), ("data", .obj [("value", .num 0)])])])) ∧
    (∀ v : Json, Lan.translateCmd "brightness" v =
      .ok (.obj [("msg", .obj [("cmd", .str "brightness"), ("data", .obj [("value", v)])])])) ∧
    (∀ v : Json, Lan.translateCmd "color" v =
      .ok (.obj [("msg", .obj [("cmd", .str "colorwc"),
        ("data", .obj [("color", v), ("colorTemInKelvin", .num 0)])])])) ∧
    (∀ v : Json, Lan.translateCmd "colorTem" v =
      .ok (.obj [("msg", .obj [("cmd", .str "colorwc"),
        ("data", .obj [("color", .obj [("r", .num 0), ("g", .num 0), ("b", .num 0)]),
                       ("colorTemInKelvin", v)])])])) ∧
    (∀ name : String, ∀ v : Json, name ∉ ["turn", "brightness", "color", "colorTem"] →
      Lan.translateCmd name v = .error ("Unknown command: " ++ name)) := by
  refine ⟨rfl, rfl, fun v => rfl, fun v => rfl, fun v => rfl, fun name v h => ?_⟩
  simp only [List.mem_cons, List.not_mem_nil, or_false, not_or] at h
  obtain ⟨h1, h2, h3, h4⟩ := h
  unfold Lan.translateCmd
  split <;> simp_all

/-- Witness C7: an unrecognised command name fails with the unknown-command error. -/
theorem c7_witness :
    Lan.translateCmd "power" (.str "on") = .error "Unknown command: power" :=
  c7_local_translator_total_shapes.2.2.2.2.2 "power" (.str "on") (by decide)

/-- C9: every entry the local backend's listDevices returns reports
controllable = true, retrievable = false, displayName equal to the device
identifier itself, and exactly the four supported command names — even
though the backend does implement state retrieval (`runQuery` above). -/
theorem c9_listDevices_fixed_fields (lanDevices : List GoveeLanDevice) :
    ∀ g ∈ Lan.listDevices lanDevices,
      g.controllable = true ∧ g.retrievable = false ∧ g.deviceName = g.device ∧
      g.supportCmds = ["turn", "brightness", "color", "colorTem"] ∧
      ∃ d ∈ lanDevices, g.device = d.device := by
  intro g hg
  unfold Lan.listDevices at hg
  rw [List.mem_map] at hg
  obtain ⟨d, hd, rfl⟩ := hg
  exact ⟨rfl, rfl, rfl, rfl, d, hd, rfl⟩

/-- Witness C9: the fields of the entry produced for the sample device. -/
theorem c9_witness :
    demoListedDevice.controllable = true ∧ demoListedDevice.retrievable = false ∧
    demoListedDevice.deviceName = demoListedDevice.device ∧
    demoListedDevice.supportCmds = ["turn", "brightness", "color", "colorTem"] ∧
    ∃ d ∈ [demoLanDevice], demoListedDevice.device = d.device :=
  c9_listDevices_fixed_fields [demoLanDevice] demoListedDevice (by decide)

/-- C10: in both the local and the v2 translators, the turn command maps its
value to 1 exactly when the value is the string "on"; every other value —
"off", booleans, numbers, "ON", any unrecognised token — maps to 0, with no
validation error at the translator level. -/
theorem c10_turn_strict_on_token (v : Json) :
    (v = .str "on" →
      Lan.translateCmd "turn" v =
        .ok (.obj [("msg", .obj [("cmd", .str "turn"), ("data", .obj [("value", .num 1)])])]) ∧
      V2.translateCmd "turn" v =
        .ok (.obj [("type", .str CAP_ON_OFF), ("instance", .str "powerSwitch"),
          ("value", .num 1)])) ∧
    (v ≠ .str "on" →
      Lan.translateCmd "turn" v =
        .ok (.obj [("msg", .obj [("cmd", .str "turn"), ("data", .obj [("value", .num 0)])])]) ∧
      V2.translateCmd "turn" v =
        .ok (.obj [("type", .str CAP_ON_OFF), ("instance", .str "powerSwitch"),
          ("value", .num 0)])) := by
  constructor
  · rintro rfl
    exact ⟨rfl, rfl⟩
  · intro h
    constructor
    · unfold Lan.translateCmd
      cases v with
      | str s =>
        have hs : s ≠ "on" := by intro hh; exact h (by rw [hh])
        simp [hs]
      | null => rfl
      | bool b => rfl
      | num n => rfl
      | arr xs => rfl
      | obj fs => rfl
    · unfold V2.translateCmd
      cases v with
      | str s =>
        have hs : s ≠ "on" := by intro hh; exact h (by rw [hh])
        simp [hs]
      | null => rfl
      | bool b => rfl
      | num n => rfl
      | arr xs => rfl
      | obj fs => rfl

/-- Witness C10: "ON" and the boolean true both translate to 0 (off). -/
theorem c10_witness :
    Lan.translateCmd "turn" (.str "ON") =
      .ok (.obj [("msg", .obj [("cmd", .str "turn"), ("data", .obj [("value", .num 0)])])]) ∧
    V2.translateCmd "turn" (.bool true) =
      .ok (.obj [("type", .str CAP_ON_OFF), ("instance", .str "powerSwitch"),
        ("value", .num 0)]) :=
  ⟨((c10_turn_strict_on_token (.str "ON")).2
      (by intro h; injection h with h2; exact absurd h2 (by decide))).1,
   ((c10_turn_strict_on_token (.bool true)).2 (by intro h; cases h)).2⟩

namespace Lan

lemma scanStep_eq (acc : ScanAcc) (d : Option Json) :
    scanStep acc d = match extractScan d with
      | none => acc
      | some dev => addSeen acc dev := rfl

lemma foldl_scanStep_filterMap (dgrams : List (Option Json)) (acc : ScanAcc) :
    dgrams.foldl scanStep acc = (dgrams.filterMap extractScan).foldl addSeen acc := by
  induction dgrams generalizing acc with
  | nil => rfl
  | cons d ds ih =>
    simp only [List.foldl_cons, List.filterMap_cons]
    cases h : extractScan d with
    | none => rw [scanStep_eq]; simp only [h]; exact ih acc
    | some dev => rw [scanStep_eq]; simp only [h, List.foldl_cons]; exact ih _

lemma foldl_addSeen_spec (devs : List GoveeLanDevice) (acc : ScanAcc) :
    (devs.foldl addSeen acc).devices = acc.devices ++ dedupSeen acc.seen devs ∧
    (devs.foldl addSeen acc).seen =
      acc.seen ++ (dedupSeen acc.seen devs).map (fun d => d.device) := by
  induction devs generalizing acc with
  | nil => simp [dedupSeen]
  | cons d ds ih =>
    simp only [List.foldl_cons, dedupSeen]
    by_cases h : acc.seen.contains d.device
    · simp only [addSeen, h, if_pos]
      exact ih acc
    · simp only [addSeen, h, if_neg, Bool.false_eq_true, not_false_iff]
      have := ih ⟨acc.devices ++ [d], acc.seen ++ [d.device]⟩
      simp only [List.map_cons, List.append_assoc, List.singleton_append] at this ⊢
      exact this

lemma dedupSeen_not_seen :
    ∀ (devs : List GoveeLanDevice) (seen : List String),
      ∀ x ∈ dedupSeen seen devs, x.device ∉ seen := by
  intro devs
  induction devs with
  | nil => intro seen x hx; simp [dedupSeen] at hx
  | cons d ds ih =>
    intro seen x hx
    simp only [dedupSeen] at hx
    by_cases h : d.device ∈ seen
    · rw [if_pos (by simpa using h)] at hx
      exact ih seen x hx
    · rw [if_neg (by simpa using h)] at hx
      rcases List.mem_cons.mp hx with rfl | hx
      · exact h
      · intro hmem
        exact ih (seen ++ [d.device]) x hx (by simp [hmem])

lemma dedupSeen_nodup :
    ∀ (devs : List GoveeLanDevice) (seen : List String),
      ((dedupSeen seen devs).map (fun d => d.device)).Nodup := by
  intro devs
  induction devs with
  | nil => intro seen; simp [dedupSeen]
  | cons d ds ih =>
    intro seen
    simp only [dedupSeen]
    by_cases h : d.device ∈ seen
    · rw [if_pos (by simpa using h)]
      exact ih seen
    · rw [if_neg (by simpa using h)]
      simp only [List.map_cons, List.nodup_cons]
      refine ⟨?_, ih (seen ++ [d.device])⟩
      intro hmem
      rw [List.mem_map] at hmem
      obtain ⟨x, hx, hxd⟩ := hmem
      exact dedupSeen_not_seen ds (seen ++ [d.device]) x hx (by simp [hxd])

lemma dedupSeen_find? :
    ∀ (devs : List GoveeLanDevice) (seen : List String),
      ∀ dev ∈ dedupSeen seen devs,
        devs.find? (fun e => e.device == dev.device) = some dev := by
  intro devs
  induction devs with
  | nil => intro seen dev hdev; simp [dedupSeen] at hdev
  | cons d ds ih =>
    intro seen dev hdev
    simp only [dedupSeen] at hdev
    by_cases h : d.device ∈ seen
    · rw [if_pos (by simpa using h)] at hdev
      have hne : d.device ≠ dev.device := by
        intro he
        exact dedupSeen_not_seen ds seen dev hdev (he ▸ h)
      rw [List.find?_cons_of_neg _ (by simpa using hne)]
      exact ih seen dev hdev
    · rw [if_neg (by simpa using h)] at hdev
      rcases List.mem_cons.mp hdev with rfl | hdev
      · rw [List.find?_cons_of_pos _ (by simp)]
      · have hnot := dedupSeen_not_seen ds (seen ++ [d.device]) dev hdev
        have hne : d.device ≠ dev.device := by
          intro he
          exact hnot (by simp [he])
        rw [List.find?_cons_of_neg _ (by simpa using hne)]
        exact ih (seen ++ [d.device]) dev hdev

lemma dedupSeen_complete :
    ∀ (devs : List GoveeLanDevice) (seen : List String),
      ∀ e ∈ devs, e.device ∉ seen →
        ∃ dev ∈ dedupSeen seen devs, dev.device = e.device := by
  intro devs
  induction devs with
  | nil => intro seen e he; simp at he
  | cons d ds ih =>
    intro seen e he hnot
    simp only [dedupSeen]
    rcases List.mem_cons.mp he with he | he
    · subst he
      rw [if_neg (by simpa using hnot)]
      exact ⟨e, by simp⟩
    · by_cases h : d.device ∈ seen
      · rw [if_pos (by simpa using h)]
        exact ih seen e he hnot
      · rw [if_neg (by simpa using h)]
        by_cases hd : e.device = d.device
        · exact ⟨d, by simp, hd.symm⟩
        · obtain ⟨dev, hdev, hdd⟩ := ih (seen ++ [d.device]) e he (by
            simp only [List.mem_append, List.mem_singleton]
            rintro (hh | hh)
            · exact hnot hh
            · exact hd hh)
          exact ⟨dev, by simp [hdev], hdd⟩

lemma scanRun_eq_dedup (dgrams : List (Option Json)) :
    scanRun dgrams = dedupSeen [] (dgrams.filterMap extractScan) := by
  unfold scanRun
  rw [foldl_scanStep_filterMap]
  have := foldl_addSeen_spec (dgrams.filterMap extractScan) ⟨[], []⟩
  simpa using this.1

end Lan

/-- C5: over any datagram sequence of one scan window, each device identifier
yields exactly one LanDevice (the result's identifiers are pairwise
distinct), each result device is constructed from the first datagram
carrying its identifier, every accepted identifier appears, and malformed
or non-matching datagrams are dropped without affecting the scan. -/
theorem c5_scan_dedup_first_wins (dgrams : List (Option Json)) :
    ((Lan.scanRun dgrams).map (fun d => d.device)).Nodup ∧
    (∀ dev ∈ Lan.scanRun dgrams,
      (dgrams.filterMap Lan.extractScan).find? (fun e => e.device == dev.device) = some dev) ∧
    (∀ e ∈ dgrams.filterMap Lan.extractScan,
      ∃ dev ∈ Lan.scanRun dgrams, dev.device = e.device) ∧
    (∀ xs ys : List (Option Json), ∀ d, Lan.extractScan d = none →
      Lan.scanRun (xs ++ d :: ys) = Lan.scanRun (xs ++ ys)) := by
  rw [Lan.scanRun_eq_dedup]
  refine ⟨Lan.dedupSeen_nodup _ [], Lan.dedupSeen_find? _ [], ?_, ?_⟩
  · intro e he
    obtain ⟨dev, hdev, hdd⟩ := Lan.dedupSeen_complete _ [] e he (by simp)
    exact ⟨dev, hdev, hdd⟩
  · intro xs ys d hd
    rw [Lan.scanRun_eq_dedup, Lan.scanRun_eq_dedup]
    congr 1
    simp [List.filterMap_append, List.filterMap_cons, hd]

/-- Witness C5: a duplicate identifier and a malformed datagram on a concrete scan. -/
theorem c5_witness :
    ((Lan.scanRun demoDgrams).map (fun d => d.device)).Nodup ∧
    Lan.scanRun ([] ++ (none : Option Json) :: demoDgrams) = Lan.scanRun ([] ++ demoDgrams) :=
  ⟨(c5_scan_dedup_first_wins demoDgrams).1,
   (c5_scan_dedup_first_wins demoDgrams).2.2.2 [] demoDgrams none rfl⟩

/-- C2: with a non-expired discovery cache whose device list does not contain
the requested identifier, discover() returns the cached list with no
network I/O and no state change (no rescan), and both controlDevice and
getDeviceState fail on lookup with the Not-Found error instructing the
caller to re-run discovery, before any control datagram is sent. -/
theorem c2_unknown_device_fails_without_send (st : Lan.LanState) (c : Lan.DeviceCache)
    (now : Nat) (deviceId name : String) (value : Json)
    (hc : st.cache = some c) (hfresh : now < c.expiry)
    (habsent : ∀ d ∈ c.devices, d.device ≠ deviceId) :
    Lan.step st (.call now) = (st, .cached c.devices) ∧
    Lan.findDevice c.devices deviceId =
      .error ("LAN device \x27" ++ deviceId ++
        "\x27 not found. Run list_devices first to discover devices.") ∧
    Lan.controlDevice c.devices deviceId name value =
      .notFound ("LAN device \x27" ++ deviceId ++
        "\x27 not found. Run list_devices first to discover devices.") := by
  have hfind : Lan.findDevice c.devices deviceId =
      .error ("LAN device \x27" ++ deviceId ++
        "\x27 not found. Run list_devices first to discover devices.") := by
    unfold Lan.findDevice
    have : c.devices.find? (fun dev => dev.device == deviceId) = none := by
      rw [List.find?_eq_none]
      intro d hd
      simpa using habsent d hd
    rw [this]
  refine ⟨?_, hfind, ?_⟩
  · unfold Lan.step
    rw [hc]
    simp [hfresh]
  · unfold Lan.controlDevice
    rw [hfind]

/-- Witness C2: controlling an unknown identifier fails with the Not-Found error. -/
theorem c2_witness :
    Lan.controlDevice [demoLanDevice] "nope" "turn" (.str "on") =
      .notFound "LAN device \x27nope\x27 not found. Run list_devices first to discover devices." :=
  (c2_unknown_device_fails_without_send
    { cache := some { devices := [demoLanDevice], expiry := 1000 }, pending := none }
    { devices := [demoLanDevice], expiry := 1000 }
    0 "nope" "turn" (.str "on") rfl (by norm_num) (by decide)).2.2

namespace Lan

lemma queryLoop_skip (device model : String) (ip : Option String)
    (d : Option Json) (rest : List (Option Json)) (h : hasDevStatusTag d = false) :
    queryLoop device model ip (d :: rest) = queryLoop device model ip rest := by
  match d with
  | none => rfl
  | some data =>
    unfold hasDevStatusTag at h
    conv_lhs => unfold queryLoop
    cases hm : data.get? "msg" with
    | none => simp [hm]
    | some msgData =>
      simp only [hm] at h ⊢
      cases hc : msgData.get? "cmd" with
      | none => simp [hc]
      | some cj =>
        simp only [hc] at h ⊢
        cases cj with
        | str s =>
          by_cases hs : s = "devStatus"
          · subst hs; simp at h
          · simp [hs]
        | null => rfl
        | bool b => rfl
        | num n => rfl
        | arr xs => rfl
        | obj fs => rfl

lemma queryLoop_all_skip (device model : String) (ip : Option String) :
    ∀ ds : List (Option Json), (∀ d ∈ ds, hasDevStatusTag d = false) →
      queryLoop device model ip ds =
        .timedOut ("Timeout waiting for device state from " ++ ipText ip) true := by
  intro ds
  induction ds with
  | nil => intro _; rfl
  | cons d rest ih =>
    intro h
    rw [queryLoop_skip device model ip d rest (h d (by simp))]
    exact ih fun x hx => h x (by simp [hx])

end Lan

/-- C6: a getDeviceState call that receives no datagram with the devStatus
command tag within the 3000 ms window fails with the Timeout error and the
socket it opened is closed; any datagram whose tag does not match is
ignored and waiting continues. -/
theorem c6_query_timeout_and_ignore (device model : String) (ip : Option String)
    (events : List (Nat × Option Json))
    (hnone : ∀ e ∈ events, e.1 < CONTROL_TIMEOUT_MS → Lan.hasDevStatusTag e.2 = false) :
    Lan.runQuery device model ip events =
      .timedOut ("Timeout waiting for device state from " ++ Lan.ipText ip) true ∧
    (∀ (d : Option Json) (rest : List (Option Json)), Lan.hasDevStatusTag d = false →
      Lan.queryLoop device model ip (d :: rest) = Lan.queryLoop device model ip rest) := by
  refine ⟨?_, fun d rest h => Lan.queryLoop_skip device model ip d rest h⟩
  unfold Lan.runQuery
  apply Lan.queryLoop_all_skip
  intro d hd
  rw [List.mem_map] at hd
  obtain ⟨e, he, rfl⟩ := hd
  rw [List.mem_filter] at he
  exact hnone e he.1 (by simpa using he.2)

/-- Witness C6: unrelated traffic inside the window and a matching datagram after it still time out. -/
theorem c6_witness :
    Lan.runQuery "AA:BB:CC:DD:EE:FF" "H6160" (some "10.0.0.5")
        [(100, demoScanDgram), (5000, demoStatusDgram)] =
      .timedOut "Timeout waiting for device state from 10.0.0.5" true :=
  (c6_query_timeout_and_ignore "AA:BB:CC:DD:EE:FF" "H6160" (some "10.0.0.5")
    [(100, demoScanDgram), (5000, demoStatusDgram)] (by decide)).1

namespace Lan

lemma dgramsOf_cons_call (t : Nat) (es : List DiscEv) :
    dgramsOf (.call t :: es) = dgramsOf es := rfl

lemma dgramsOf_cons_dgram (d : Option Json) (es : List DiscEv) :
    dgramsOf (.datagram d :: es) = d :: dgramsOf es := rfl

lemma callsOf_cons_call (t : Nat) (es : List DiscEv) :
    callsOf (.call t :: es) = callsOf es + 1 := by
  simp [callsOf, List.countP_cons]

lemma callsOf_cons_dgram (d : Option Json) (es : List DiscEv) :
    callsOf (.datagram d :: es) = callsOf es := by
  simp [callsOf, List.countP_cons]

lemma run_append (st : LanState) (xs ys : List DiscEv) :
    run st (xs ++ ys) =
      ((run (run st xs).1 ys).1, (run st xs).2 ++ (run (run st xs).1 ys).2) := by
  induction xs generalizing st with
  | nil => simp [run]
  | cons e es ih =>
    simp only [List.cons_append, run, List.append_eq]
    rw [ih]

lemma run_busy (evs : List DiscEv) (h : ∀ e ∈ evs, busyEv e = true) (acc : ScanAcc) (w : Nat) :
    run { cache := none, pending := some { acc := acc, waiters := w } } evs =
      ({ cache := none,
         pending := some { acc := (dgramsOf evs).foldl scanStep acc,
                           waiters := w + callsOf evs } },
       evs.map busyOut) := by
  induction evs generalizing acc w with
  | nil => simp [run, dgramsOf, callsOf]
  | cons e es ih =>
    have hes : ∀ x ∈ es, busyEv x = true := fun x hx => h x (by simp [hx])
    cases e with
    | call now =>
      simp only [run, step]
      rw [ih hes]
      have harith : w + 1 + callsOf es = w + callsOf (DiscEv.call now :: es) := by
        rw [callsOf_cons_call]; omega
      rw [harith]
      rfl
    | datagram d =>
      simp only [run, step]
      rw [ih hes]
      have harith : w + callsOf es = w + callsOf (DiscEv.datagram d :: es) := by
        rw [callsOf_cons_dgram]
      rw [harith]
      rfl
    | sendError => simp [busyEv] at h
    | elapse now => simp [busyEv] at h

end Lan

namespace Lan

lemma sends_map_busyOut (evs : List DiscEv) : sends (evs.map busyOut) = 0 := by
  unfold sends
  rw [List.countP_map]
  apply List.countP_eq_zero.mpr
  intro e he
  cases e <;> simp [busyOut]

lemma run_scan_trace (t0 : Nat) (rest : List DiscEv) (h : ∀ e ∈ rest, busyEv e = true)
    (tail : List DiscEv) :
    run initState (DiscEv.call t0 :: rest ++ tail) =
      ((run { cache := none,
              pending := some { acc := (dgramsOf rest).foldl scanStep ⟨[], []⟩,
                                waiters := 1 + callsOf rest } } tail).1,
       .scanStarted ::
         (rest.map busyOut ++
          (run { cache := none,
                 pending := some { acc := (dgramsOf rest).foldl scanStep ⟨[], []⟩,
                                   waiters := 1 + callsOf rest } } tail).2)) := by
  have h1 : run initState (DiscEv.call t0 :: (rest ++ tail)) =
      ((run { cache := none, pending := some { acc := ⟨[], []⟩, waiters := 1 } }
          (rest ++ tail)).1,
       DiscOut.scanStarted ::
         (run { cache := none, pending := some { acc := ⟨[], []⟩, waiters := 1 } }
            (rest ++ tail)).2) := rfl
  rw [List.cons_append, h1, run_append, run_busy rest h]

end Lan

namespace Lan

lemma dgramsOf_map (ds : List (Option Json)) :
    dgramsOf (ds.map DiscEv.datagram) = ds := by
  induction ds with
  | nil => rfl
  | cons d rest ih => rw [List.map_cons, dgramsOf_cons_dgram, ih]

lemma callsOf_map (ds : List (Option Json)) :
    callsOf (ds.map DiscEv.datagram) = 0 := by
  induction ds with
  | nil => rfl
  | cons d rest ih => rw [List.map_cons, callsOf_cons_dgram, ih]

lemma busyEv_map (ds : List (Option Json)) :
    ∀ e ∈ ds.map DiscEv.datagram, busyEv e = true := by
  intro e he
  rw [List.mem_map] at he
  obtain ⟨d, _, rfl⟩ := he
  rfl

lemma sends_busy_tail (rest : List DiscEv) (os : List DiscOut) :
    sends (.scanStarted :: (rest.map busyOut ++ os)) = 1 + sends os := by
  have h0 := sends_map_busyOut rest
  unfold sends at h0 ⊢
  rw [List.countP_cons, List.countP_append, h0]
  simp [Nat.add_comm]

lemma run_scan_settle (t0 t1 : Nat) (rest : List DiscEv) (h : ∀ e ∈ rest, busyEv e = true) :
    run initState (DiscEv.call t0 :: rest ++ [DiscEv.elapse t1]) =
      ({ cache := some { devices := scanRun (dgramsOf rest), expiry := t1 + CACHE_TTL_MS },
         pending := none },
       .scanStarted :: (rest.map busyOut ++
         [.resolved (1 + callsOf rest) (scanRun (dgramsOf rest))])) := by
  rw [run_scan_trace t0 rest h]
  rfl

lemma run_scan_fail (t0 : Nat) (rest : List DiscEv) (h : ∀ e ∈ rest, busyEv e = true) :
    run initState (DiscEv.call t0 :: rest ++ [DiscEv.sendError]) =
      ({ cache := none, pending := none },
       .scanStarted :: (rest.map busyOut ++ [.rejected (1 + callsOf rest)])) := by
  rw [run_scan_trace t0 rest h]
  rfl

end Lan

namespace Lan

lemma run_elapse_call (acc : ScanAcc) (w t1 t2 : Nat) (h2 : t2 < t1 + CACHE_TTL_MS) :
    run { cache := none, pending := some { acc := acc, waiters := w } }
        [DiscEv.elapse t1, DiscEv.call t2] =
      ({ cache := some { devices := acc.devices, expiry := t1 + CACHE_TTL_MS }, pending := none },
       [.resolved w acc.devices, .cached acc.devices]) := by
  simp only [run, step]
  rw [if_pos h2]

end Lan

/-- C3: when a scan's collection window closes at time t1, the collected list
is stored with expiry t1 + CACHE_TTL_MS (completion time plus 5 minutes,
not scan start); a discover() call at any t2 inside that window is answered
from the cache with the same list as the first call and the whole trace
performs exactly one multicast send. -/
theorem c3_cache_expiry_and_hit (dgrams : List (Option Json)) (t0 t1 t2 : Nat)
    (h2 : t2 < t1 + CACHE_TTL_MS) :
    (Lan.run Lan.initState
        (Lan.DiscEv.call t0 :: dgrams.map Lan.DiscEv.datagram ++
          [Lan.DiscEv.elapse t1, Lan.DiscEv.call t2])).1.cache =
      some { devices := Lan.scanRun dgrams, expiry := t1 + CACHE_TTL_MS } ∧
    (Lan.run Lan.initState
        (Lan.DiscEv.call t0 :: dgrams.map Lan.DiscEv.datagram ++
          [Lan.DiscEv.elapse t1, Lan.DiscEv.call t2])).2.getLast? =
      some (.cached (Lan.scanRun dgrams)) ∧
    Lan.sends (Lan.run Lan.initState
        (Lan.DiscEv.call t0 :: dgrams.map Lan.DiscEv.datagram ++
          [Lan.DiscEv.elapse t1, Lan.DiscEv.call t2])).2 = 1 ∧
    Lan.DiscOut.resolved 1 (Lan.scanRun dgrams) ∈
      (Lan.run Lan.initState
        (Lan.DiscEv.call t0 :: dgrams.map Lan.DiscEv.datagram ++
          [Lan.DiscEv.elapse t1, Lan.DiscEv.call t2])).2 := by
  rw [Lan.run_scan_trace t0 (dgrams.map Lan.DiscEv.datagram) (Lan.busyEv_map dgrams),
      Lan.dgramsOf_map, Lan.callsOf_map,
      Lan.run_elapse_call _ _ t1 t2 h2]
  refine ⟨rfl, ?_, ?_, ?_⟩
  · rw [← List.cons_append, List.getLast?_append]
    rfl
  · rw [Lan.sends_busy_tail]
    rfl
  · have hsr : Lan.DiscOut.resolved 1 (Lan.scanRun dgrams) =
        Lan.DiscOut.resolved 1 (List.foldl Lan.scanStep ⟨[], []⟩ dgrams).devices := rfl
    rw [hsr]
    simp

/-- C4: any number of discover() calls issued while a scan is in flight cause
exactly one multicast send and all resolve together with the same device
list (the final resolution carries every waiter); the pending token is
cleared on settlement in success and in failure, and after a failure a new
discover() call starts a fresh scan. -/
theorem c4_single_flight (t0 t1 t2 : Nat) (rest : List Lan.DiscEv)
    (h : ∀ e ∈ rest, Lan.busyEv e = true) :
    Lan.sends (Lan.run Lan.initState
        (Lan.DiscEv.call t0 :: rest ++ [Lan.DiscEv.elapse t1])).2 = 1 ∧
    (Lan.run Lan.initState
        (Lan.DiscEv.call t0 :: rest ++ [Lan.DiscEv.elapse t1])).2.getLast? =
      some (.resolved (1 + Lan.callsOf rest) (Lan.scanRun (Lan.dgramsOf rest))) ∧
    (Lan.run Lan.initState
        (Lan.DiscEv.call t0 :: rest ++ [Lan.DiscEv.elapse t1])).1.pending = none ∧
    (Lan.run Lan.initState
        (Lan.DiscEv.call t0 :: rest ++ [Lan.DiscEv.sendError])).1.pending = none ∧
    (Lan.step (Lan.run Lan.initState
        (Lan.DiscEv.call t0 :: rest ++ [Lan.DiscEv.sendError])).1 (.call t2)).2 =
      Lan.DiscOut.scanStarted := by
  rw [Lan.run_scan_settle t0 t1 rest h, Lan.run_scan_fail t0 rest h]
  refine ⟨?_, ?_, rfl, rfl, rfl⟩
  · rw [Lan.sends_busy_tail]
    rfl
  · rw [← List.cons_append, List.getLast?_concat]

/-- Witness C4: two coalesced calls and a datagram cause a single multicast send. -/
theorem c4_witness :
    Lan.sends (Lan.run Lan.initState
        (Lan.DiscEv.call 0 :: [Lan.DiscEv.call 5, Lan.DiscEv.datagram demoScanDgram] ++
          [Lan.DiscEv.elapse 3000])).2 = 1 :=
  (c4_single_flight 0 3000 4000 [Lan.DiscEv.call 5, Lan.DiscEv.datagram demoScanDgram]
    (by decide)).1

/-- C8: if the bind or the outbound multicast send fails, the receiving socket
is closed, every waiter on the scan is rejected with the transport error,
the pending token is cleared, and no cache entry is written (the cache
field is exactly what it was before the scan). -/
theorem c8_transport_error_cleanup (t0 : Nat) (rest : List Lan.DiscEv)
    (h : ∀ e ∈ rest, Lan.busyEv e = true) :
    (Lan.run Lan.initState (Lan.DiscEv.call t0 :: rest ++ [Lan.DiscEv.sendError])).1 =
      { cache := Lan.initState.cache, pending := none } ∧
    (Lan.run Lan.initState (Lan.DiscEv.call t0 :: rest ++ [Lan.DiscEv.sendError])).2.getLast? =
      some (.rejected (1 + Lan.callsOf rest)) ∧
    Lan.closesListener (Lan.DiscOut.rejected (1 + Lan.callsOf rest)) = true ∧
    (∀ (st : Lan.LanState) (p : Lan.PendingScan), st.pending = some p →
      Lan.step st .sendError = ({ cache := st.cache, pending := none }, .rejected p.waiters)) := by
  rw [Lan.run_scan_fail t0 rest h]
  refine ⟨rfl, ?_, rfl, ?_⟩
  · rw [← List.cons_append, List.getLast?_concat]
  · intro st p hp
    unfold Lan.step
    rw [hp]

/-- Witness C8: a failing scan with two waiters rejects both. -/
theorem c8_witness :
    (Lan.run Lan.initState
        (Lan.DiscEv.call 0 :: [Lan.DiscEv.call 7] ++ [Lan.DiscEv.sendError])).2.getLast? =
      some (.rejected 2) :=
  (c8_transport_error_cleanup 0 [Lan.DiscEv.call 7] (by decide)).2.1

/-- Witness C3: a second discovery call 57 s after completion is served from cache. -/
theorem c3_witness :
    (Lan.run Lan.initState
        (Lan.DiscEv.call 0 :: demoDgrams.map Lan.DiscEv.datagram ++
          [Lan.DiscEv.elapse 3000, Lan.DiscEv.call 60000])).2.getLast? =
      some (.cached (Lan.scanRun demoDgrams)) :=
  (c3_cache_expiry_and_hit demoDgrams 0 3000 60000 (by norm_num [CACHE_TTL_MS])).2.1
